import Mathlib

/-!
Verification of the banking demo's validation and transaction/balance logic.

The definitions below are shallow embeddings of the TypeScript source:
* `src/components/FundingModal.tsx` — card Luhn check, card-network
  detection, routing-number and amount field validation;
* the account router (`src/unnamed/part_001`) — `createAccount`,
  `fundAccount`, `getTransactions` over an explicit database state;
* the session-expiry comparison exercised by
  `src/__tests__/auth-session.test.ts`.

Machine numbers are embedded as `Nat`/`Int`/`ℚ`; the monetary values the
claims mention (100.50, 25.75, 126.25, 10000.01) are exactly representable
IEEE-754 doubles, so the exact-rational embedding agrees with the
JavaScript arithmetic at every point the theorems evaluate.
-/

/-- `'lo' ≤ c ≤ 'hi'`, the semantics of a regex character range `[lo-hi]`. -/
def inRange (lo hi c : Char) : Bool :=
  lo ≤ c && c ≤ hi

/-- `parseInt(digits[i], 10)` on a single digit character. -/
def charToDigit (c : Char) : Nat :=
  c.toNat - 48

/-- One doubled digit of the Luhn loop in `validateCardNumber`
(`digit *= 2; if (digit > 9) digit -= 9`). -/
def luhnDouble (d : Nat) : Nat :=
  if d * 2 > 9 then d * 2 - 9 else d * 2

/-- The Luhn accumulation loop of `validateCardNumber`, processing the
digit list rightmost-first with the source's `isEven` flag (initially
`false`, toggled each step; a digit is doubled when the flag is set). -/
def luhnSumRev : List Nat → Bool → Nat
  | [], _ => 0
  | d :: rest, isEven => (if isEven then luhnDouble d else d) + luhnSumRev rest (!isEven)

/-- `cardNumber.replace(/\D/g, "")`: the digit characters of the input. -/
def cardDigits (s : String) : List Char :=
  s.data.filter Char.isDigit

/-- `validateCardNumber` from `FundingModal.tsx`: strip non-digits,
require exactly 16 digits, then accept iff the Luhn sum is divisible
by 10. -/
def validateCardNumber (s : String) : Bool :=
  let digits := cardDigits s
  if digits.length != 16 then false
  else luhnSumRev ((digits.map charToDigit).reverse) false % 10 == 0

/-- The Luhn check digit for a payload string: the digit whose appended
occurrence makes the extended string's Luhn sum divisible by 10.  The sum
is taken by the same loop as `validateCardNumber`, with the doubling flag
started at `true` because the appended check digit occupies the undoubled
rightmost position. -/
def luhnCheckDigit (s : String) : Nat :=
  (10 - luhnSumRev ((cardDigits s).map charToDigit).reverse true % 10) % 10

/-- Regex `/^4/` (Visa branch of `detectCardType`). -/
def visaTest : List Char → Bool
  | '4' :: _ => true
  | _ => false

/-- Regexes `/^5[1-5]/` and `/^2(22[1-9]|2[3-9][0-9]|[3-6][0-9]{2}|7[0-1][0-9]|720)/`
(Mastercard branch of `detectCardType`). -/
def mastercardTest : List Char → Bool
  | '5' :: c :: _ => inRange '1' '5' c
  | '2' :: c1 :: c2 :: c3 :: _ =>
      (c1 == '2' && c2 == '2' && inRange '1' '9' c3) ||
      (c1 == '2' && inRange '3' '9' c2 && inRange '0' '9' c3) ||
      (inRange '3' '6' c1 && inRange '0' '9' c2 && inRange '0' '9' c3) ||
      (c1 == '7' && inRange '0' '1' c2 && inRange '0' '9' c3) ||
      (c1 == '7' && c2 == '2' && c3 == '0')
  | _ => false

/-- Regex `/^3[47]/` (American Express branch of `detectCardType`). -/
def amexTest : List Char → Bool
  | '3' :: c :: _ => c == '4' || c == '7'
  | _ => false

/-- Regex `/^(6011|65|64[4-9]|622)/` (Discover branch of `detectCardType`). -/
def discoverTest : List Char → Bool
  | '6' :: '0' :: '1' :: '1' :: _ => true
  | '6' :: '5' :: _ => true
  | '6' :: '4' :: c :: _ => inRange '4' '9' c
  | '6' :: '2' :: '2' :: _ => true
  | _ => false

/-- Regex `/^(30[0-5]|36|38)/` (Diners Club branch of `detectCardType`). -/
def dinersTest : List Char → Bool
  | '3' :: '0' :: c :: _ => inRange '0' '5' c
  | '3' :: '6' :: _ => true
  | '3' :: '8' :: _ => true
  | _ => false

/-- Regex `/^35(2[89]|[3-8][0-9])/` (JCB branch of `detectCardType`). -/
def jcbTest : List Char → Bool
  | '3' :: '5' :: '2' :: c :: _ => c == '8' || c == '9'
  | '3' :: '5' :: c1 :: c2 :: _ => inRange '3' '8' c1 && inRange '0' '9' c2
  | _ => false

/-- `detectCardType` from `FundingModal.tsx`: strip non-digits, then try
the network prefix tests in source order, returning the first matching
label or `none`. -/
def detectCardType (s : String) : Option String :=
  let digits := s.data.filter Char.isDigit
  if visaTest digits then some "Visa"
  else if mastercardTest digits then some "Mastercard"
  else if amexTest digits then some "American Express"
  else if discoverTest digits then some "Discover"
  else if dinersTest digits then some "Diners Club"
  else if jcbTest digits then some "JCB"
  else none

/-- Regex `/^\d{9}$/`: the whole string is exactly nine digit characters. -/
def nineDigits (v : String) : Bool :=
  v.data.length == 9 && v.data.all Char.isDigit

/-- The routing-number field rules registered in `FundingModal.tsx`
(`required` when the funding type is `"bank"`, pattern `/^\d{9}$/`,
`notAllZeros`), run in react-hook-form's order; returns the first error
message, or `none` when the field passes.  A `none` value models the field
being absent from the submission. -/
def routingNumberValidation (fundingType : String) (value : Option String) : Option String :=
  match value with
  | none =>
      if fundingType == "bank" then some "Routing number is required for bank transfers" else none
  | some v =>
      if v == "" then
        (if fundingType == "bank" then some "Routing number is required for bank transfers" else none)
      else if !(nineDigits v) then some "Routing number must be exactly 9 digits"
      else if v == "000000000" then some "Invalid routing number"
      else none

/-- Split a character list at its first `'.'`; the second component is
`none` when no dot occurs. -/
def splitFirstDot : List Char → List Char × Option (List Char)
  | [] => ([], none)
  | c :: rest =>
      if c == '.' then ([], some rest)
      else
        let p := splitFirstDot rest
        (c :: p.1, p.2)

/-- Regex group `(0|[1-9]\d*)`: the integer part is `"0"` or starts with a
nonzero digit. -/
def intPartOk : List Char → Bool
  | [] => false
  | ['0'] => true
  | c :: rest => inRange '1' '9' c && rest.all Char.isDigit

/-- Decimal value of a digit string. -/
def natOfDigits (l : List Char) : Nat :=
  l.foldl (fun n c => n * 10 + charToDigit c) 0

/-- The amount pattern `/^(0|[1-9]\d*)(\.\d{0,2})?$/` from the amount
field of `FundingModal.tsx`. -/
def matchesAmountPattern (s : String) : Bool :=
  let p := splitFirstDot s.data
  intPartOk p.1 &&
    (match p.2 with
     | none => true
     | some f => decide (f.length ≤ 2) && f.all Char.isDigit)

/-- `parseFloat` on strings matching the amount pattern, embedded as the
exact decimal value (integer part plus fractional digits over a power of
ten). -/
def parseAmount (s : String) : ℚ :=
  let p := splitFirstDot s.data
  let fp := p.2.getD []
  (natOfDigits p.1 : ℚ) + (natOfDigits fp : ℚ) / (10 : ℚ) ^ fp.length

/-- Regex `/^0\d/` used by the `noLeadingZeros` rule. -/
def hasLeadingZeroDigit (s : String) : Bool :=
  match s.data with
  | '0' :: c :: _ => c.isDigit
  | _ => false

/-- The amount field rules registered in `FundingModal.tsx`, in
react-hook-form's order: `required`, the pattern, then the custom
validators `minAmount`, `maxAmount`, `noLeadingZeros`.  Returns the first
error message, or `none` when the amount passes. -/
def amountFieldValidation (s : String) : Option String :=
  if s == "" then some "Amount is required"
  else if !(matchesAmountPattern s) then some "Invalid amount format (no leading zeros)"
  else if !(decide (0 < parseAmount s)) then some "Amount must be greater than $0.00"
  else if !(decide (parseAmount s ≤ 10000)) then some "Amount cannot exceed $10,000"
  else if hasLeadingZeroDigit s then some "Amount cannot have leading zeros"
  else none

/-- Session record as in `auth-session.test.ts` (`expiresAt` as epoch
milliseconds). -/
structure Session where
  token : String
  userId : Nat
  expiresAt : Int
deriving DecidableEq

/-- The session-validity comparison inlined in the `Session Expiry Logic`
tests of `auth-session.test.ts`: `const isValid = expiresAt >= now`. -/
def testSessionIsValid (expiresAt now : Int) : Bool :=
  decide (expiresAt ≥ now)

/-- Modelled from the spec: the Session Policy operation
`isValid(session, now)` — the session-policy implementation itself is not
among the provided source files (only its tests are).  Per the spec it
"returns false when `now >= expiresAt` (expiry is inclusive)". -/
def isValid (session : Session) (now : Int) : Bool :=
  decide (now < session.expiresAt)

/-- A row of the `accounts` table. -/
structure Account where
  id : Nat
  userId : Nat
  accountNumber : String
  accountType : String
  balance : ℚ
  status : String
deriving DecidableEq

/-- A row of the `transactions` table (`createdAt`/`processedAt` as epoch
instants). -/
structure Transaction where
  id : Nat
  accountId : Nat
  txType : String
  amount : ℚ
  description : String
  status : String
  createdAt : Nat
  processedAt : Option Nat
deriving DecidableEq

/-- The persisted state the account router operates on. -/
structure DB where
  accounts : List Account
  transactions : List Transaction
deriving DecidableEq

/-- tRPC error codes used by the account router. -/
inductive TRPCErrorCode
  | CONFLICT
  | NOT_FOUND
  | BAD_REQUEST
  | INTERNAL_SERVER_ERROR
deriving DecidableEq

/-- A `TRPCError` as thrown by the account router. -/
structure TRPCError where
  code : TRPCErrorCode
  message : String
deriving DecidableEq

/-- Errors escaping `createAccount`: either a thrown `TRPCError`, or a
database uniqueness violation raised by the uncaught insert. -/
inductive CreateErr
  | trpc (e : TRPCError)
  | uniqueViolation (accountNumber : String)
deriving DecidableEq

/-- A transaction enriched with its account's type, as built by
`getTransactions` (`{ ...transaction, accountType: account.accountType }`). -/
structure EnrichedTransaction where
  tx : Transaction
  accountType : String
deriving DecidableEq

/-- The comparator realised by `orderBy(desc(transactions.createdAt))`:
`a` comes no later than `b` in the output when `a`'s creation time is the
larger. -/
def txDesc (a b : Transaction) : Prop :=
  b.createdAt ≤ a.createdAt

instance : DecidableRel txDesc :=
  fun a b => inferInstanceAs (Decidable (b.createdAt ≤ a.createdAt))

instance : IsTotal Transaction txDesc :=
  ⟨fun a b => Nat.le_total b.createdAt a.createdAt⟩

instance : IsTrans Transaction txDesc :=
  ⟨fun _ _ _ hab hbc => Nat.le_trans hbc hab⟩

/-- `db.select().from(accounts).where(and(eq(accounts.id, accountId),
eq(accounts.userId, userId))).get()`. -/
def findAccount (db : DB) (accountId userId : Nat) : Option Account :=
  db.accounts.find? (fun a => a.id == accountId && a.userId == userId)

/-- `db.select().from(accounts).where(eq(accounts.accountNumber, n)).get()`
reduced to whether a row exists. -/
def numberExists (db : DB) (n : String) : Bool :=
  (db.accounts.find? (fun a => a.accountNumber == n)).isSome

/-- The duplicate-type check opening `createAccount`: does the user
already own an account of this type? -/
def hasAccountType (db : DB) (userId : Nat) (accountType : String) : Bool :=
  (db.accounts.find? (fun a => a.userId == userId && a.accountType == accountType)).isSome

/-- The `while (!isUnique)` loop of `createAccount` over the stream of
candidates produced by `generateAccountNumber`: the first candidate whose
existence check against the database finds no row.  `none` models the
loop still running when the (finite) candidate list is exhausted. -/
def findUniqueNumber (db : DB) : List String → Option String
  | [] => none
  | c :: rest => if numberExists db c then findUniqueNumber db rest else some c

/-- `createAccount` from the account router.  The persistence
collaborator's behaviour between the uniqueness loop and the insert is
made explicit by two oracle parameters: `concurrent` is the list of rows
committed by other requests between the loop's existence check and this
request's insert (the `accounts.accountNumber` column is unique, so the
insert raises a uniqueness violation — uncaught in the source — when the
chosen number is already present at insert time), and `insertDropped`
models the driver acknowledging the insert without persisting the row
(the "insert or re-read does not yield a record" failure the spec's §4.4
and §7 describe).  The control flow — conflict check, uniqueness loop,
insert, re-read, `INTERNAL_SERVER_ERROR` on a missing re-read — is the
source's. -/
def createAccount (db : DB) (userId : Nat) (accountType : String)
    (candidates : List String) (concurrent : List Account) (newId : Nat)
    (insertDropped : Bool) : DB × Except CreateErr Account :=
  if hasAccountType db userId accountType then
    (db, .error (.trpc ⟨.CONFLICT, "You already have a " ++ accountType ++ " account"⟩))
  else
    match findUniqueNumber db candidates with
    | none => (db, .error (.trpc ⟨.INTERNAL_SERVER_ERROR, "Failed to create account"⟩))
    | some accountNumber =>
        let dbAtInsert : DB := { db with accounts := db.accounts ++ concurrent }
        if numberExists dbAtInsert accountNumber then
          (dbAtInsert, .error (.uniqueViolation accountNumber))
        else
          let newAccount : Account :=
            ⟨newId, userId, accountNumber, accountType, 0, "active"⟩
          let db1 : DB :=
            if insertDropped then dbAtInsert
            else { dbAtInsert with accounts := dbAtInsert.accounts ++ [newAccount] }
          match db1.accounts.find? (fun a => a.accountNumber == accountNumber) with
          | none => (db1, .error (.trpc ⟨.INTERNAL_SERVER_ERROR, "Failed to create account"⟩))
          | some account => (db1, .ok account)

/-- `fundAccount` from the account router: ownership check
(`NOT_FOUND`), status check (`BAD_REQUEST`), insert of one deposit
transaction, fetch of the most recent transaction for the account
(descending creation time, limit 1), then a single-addition balance
update.  Returns the resulting database together with the thrown error or
the `{ transaction, newBalance }` payload. -/
def fundAccount (db : DB) (accountId userId : Nat) (amount : ℚ)
    (sourceType : String) (now : Nat) (newTxId : Nat) :
    DB × Except TRPCError (Option Transaction × ℚ) :=
  match findAccount db accountId userId with
  | none => (db, .error ⟨.NOT_FOUND, "Account not found"⟩)
  | some account =>
      if account.status != "active" then
        (db, .error ⟨.BAD_REQUEST, "Account is not active"⟩)
      else
        let newTx : Transaction :=
          ⟨newTxId, accountId, "deposit", amount, "Funding from " ++ sourceType,
            "completed", now, some now⟩
        let db1 : DB := { db with transactions := db.transactions ++ [newTx] }
        let fetched :=
          (List.insertionSort txDesc
            (db1.transactions.filter (fun t => t.accountId == accountId))).head?
        let db2 : DB :=
          { db1 with
            accounts := db1.accounts.map (fun a =>
              if a.id == accountId then { a with balance := account.balance + amount } else a) }
        (db2, .ok (fetched, account.balance + amount))

/-- `getTransactions` from the account router: ownership check
(`NOT_FOUND`), one fetch of the account's transactions ordered by
descending creation time, then in-memory enrichment with the account type
of the already-fetched account record.  The second component counts the
database queries issued (one account fetch plus one transaction fetch;
the enrichment map issues none). -/
def getTransactions (db : DB) (accountId userId : Nat) :
    Except TRPCError (List EnrichedTransaction) × Nat :=
  match findAccount db accountId userId with
  | none => (.error ⟨.NOT_FOUND, "Account not found"⟩, 1)
  | some account =>
      let accountTransactions :=
        List.insertionSort txDesc (db.transactions.filter (fun t => t.accountId == accountId))
      let enriched := accountTransactions.map (fun t => ⟨t, account.accountType⟩)
      (.ok enriched, 2)

/-- Fixture: an active checking account holding 100.50. -/
def acct2ex : Account := ⟨5, 1, "1234567890", "checking", 100.50, "active"⟩

/-- Fixture: a database owning only `acct2ex`. -/
def db2ex : DB := ⟨[acct2ex], []⟩

/-- Fixture: an account whose status is not `"active"`. -/
def acctFrozenEx : Account := ⟨7, 2, "2222222222", "savings", 50, "frozen"⟩

/-- Fixture: a database owning only `acctFrozenEx`. -/
def dbFrozenEx : DB := ⟨[acctFrozenEx], []⟩

/-- Fixture: an active savings account for the transaction-listing claim. -/
def acct5ex : Account := ⟨3, 2, "3333333333", "savings", 0, "active"⟩

/-- Fixture: an old transaction of `acct5ex`. -/
def tx5a : Transaction := ⟨1, 3, "deposit", 10, "Funding from card", "completed", 1, some 1⟩

/-- Fixture: a newer transaction of `acct5ex`. -/
def tx5b : Transaction := ⟨2, 3, "deposit", 20, "Funding from bank", "completed", 5, some 5⟩

/-- Fixture: a transaction of a different account. -/
def tx5c : Transaction := ⟨4, 9, "deposit", 30, "Funding from card", "completed", 9, some 9⟩

/-- Fixture: a database with `acct5ex` and its transactions stored out of
order. -/
def db5ex : DB := ⟨[acct5ex], [tx5a, tx5c, tx5b]⟩

/-- Fixture: an account already holding the first candidate number. -/
def acct9ex : Account := ⟨1, 1, "9999999999", "checking", 0, "active"⟩

/-- Fixture: a database owning only `acct9ex`. -/
def db9ex : DB := ⟨[acct9ex], []⟩

/-- Fixture: a row committed by a concurrent request between the
uniqueness loop's existence check and the insert. -/
def concAcct9ex : Account := ⟨2, 9, "1111111111", "savings", 0, "active"⟩

/-- C1: at the exact expiry instant (2026-02-19T10:00:00Z, epoch ms
1771495200000) the comparison inlined in the repository's session-expiry
test (`isValid = expiresAt >= now`) still reports the session as valid,
while the claim — and the spec's Session Policy, modelled by `isValid` —
says validity is false when `now == expiresAt`. -/
theorem sessionExpiry_test_check_at_expiry :
    testSessionIsValid 1771495200000 1771495200000 = true ∧
    isValid ⟨"token", 1, 1771495200000⟩ 1771495200000 = false := by
  constructor <;> rfl

/-- C8: card-network detection returns at most one label per input, and
yields the six sample classifications (Visa, American Express, Discover,
Diners Club, JCB, and none for an unrecognized prefix). -/
theorem detectCardType_samples :
    (∀ s : String, (detectCardType s).toList.length ≤ 1) ∧
    detectCardType "4532015112830366" = some "Visa" ∧
    detectCardType "3782822463100050" = some "American Express" ∧
    detectCardType "6011111111111117" = some "Discover" ∧
    detectCardType "3056930009020004" = some "Diners Club" ∧
    detectCardType "3530111333300000" = some "JCB" ∧
    detectCardType "9999999999999999" = none := by
  refine ⟨fun s => ?_, by decide, by decide, by decide, by decide, by decide, by decide⟩
  cases detectCardType s <;> simp

/-- C7 (counterexample): appending the Luhn check digit to the 16-digit
string `"4532015112830366"` yields 17 digits, which the validator's
exact-16-length rule rejects; indeed no appended digit at all makes a
16-digit input validate. -/
theorem luhn_append_to_16_digits_rejected :
    validateCardNumber
      ("4532015112830366".push (Nat.digitChar (luhnCheckDigit "4532015112830366"))) = false ∧
    ((List.range 10).all
      (fun c => !validateCardNumber ("4532015112830366".push (Nat.digitChar c)))) = true := by
  constructor <;> decide

/-- A digit value below ten maps to a digit character. -/
theorem digitChar_isDigit (c : Nat) (h : c < 10) : (Nat.digitChar c).isDigit = true := by
  interval_cases c <;> decide

/-- `charToDigit` inverts `Nat.digitChar` on digit values. -/
theorem charToDigit_digitChar (c : Nat) (h : c < 10) : charToDigit (Nat.digitChar c) = c := by
  interval_cases c <;> decide

/-- Pushing a character appends it to the string's character list. -/
theorem data_push (s : String) (c : Char) : (s.push c).data = s.data ++ [c] := rfl

/-- C7 (amended): for every 15-digit numeric string, appending the check
digit computed by the same Luhn algorithm yields a 16-digit string that
`validateCardNumber` accepts. -/
theorem luhn_append_15_validates (s : String)
    (h1 : s.data.length = 15) (h2 : ∀ c ∈ s.data, c.isDigit = true) :
    validateCardNumber (s.push (Nat.digitChar (luhnCheckDigit s))) = true := by
  have hfilter : s.data.filter Char.isDigit = s.data := List.filter_eq_self.mpr h2
  have hclt : luhnCheckDigit s < 10 := Nat.mod_lt _ (by decide)
  have hdig : (Nat.digitChar (luhnCheckDigit s)).isDigit = true := digitChar_isDigit _ hclt
  have hpush : cardDigits (s.push (Nat.digitChar (luhnCheckDigit s))) =
      s.data ++ [Nat.digitChar (luhnCheckDigit s)] := by
    unfold cardDigits
    rw [data_push, List.filter_append, hfilter]
    simp [hdig]
  have hlen : (s.data ++ [Nat.digitChar (luhnCheckDigit s)]).length = 16 := by
    simp [h1]
  have hmap : (s.data ++ [Nat.digitChar (luhnCheckDigit s)]).map charToDigit =
      s.data.map charToDigit ++ [luhnCheckDigit s] := by
    rw [List.map_append]
    simp [charToDigit_digitChar _ hclt]
  have hsum : luhnSumRev ((s.data.map charToDigit ++ [luhnCheckDigit s]).reverse) false =
      luhnCheckDigit s + luhnSumRev (s.data.map charToDigit).reverse true := by
    rw [List.reverse_append]
    simp [luhnSumRev]
  have hmod : (luhnCheckDigit s +
      luhnSumRev (s.data.map charToDigit).reverse true) % 10 = 0 := by
    have hcval : luhnCheckDigit s =
        (10 - luhnSumRev ((s.data.map charToDigit)).reverse true % 10) % 10 := by
      unfold luhnCheckDigit cardDigits
      rw [hfilter]
    rw [hcval]
    omega
  simp only [validateCardNumber, hpush, hlen, hmap, hsum]
  simp [hmod]

/-- Witness for the amended C7 theorem at the concrete 15-digit payload
`"453201511283036"`. -/
theorem luhn_append_15_validates_witness :
    validateCardNumber
      ("453201511283036".push (Nat.digitChar (luhnCheckDigit "453201511283036"))) = true :=
  luhn_append_15_validates "453201511283036" (by decide) (by decide)

/-- C6: for a bank funding source, a missing routing number is rejected
with the required-field message, and a supplied routing number passes
exactly when it consists of exactly 9 digit characters and is not the
all-zero string. -/
theorem routingNumber_validation_rules :
    routingNumberValidation "bank" none = some "Routing number is required for bank transfers" ∧
    ∀ v : String, routingNumberValidation "bank" (some v) = none ↔
      ((v.data.length = 9 ∧ ∀ c ∈ v.data, c.isDigit = true) ∧ v ≠ "000000000") := by
  refine ⟨rfl, fun v => ?_⟩
  by_cases hv : v = ""
  · subst hv
    simp [routingNumberValidation]
  · have hv' : (v == "") = false := beq_eq_false_iff_ne.mpr hv
    by_cases h9 : nineDigits v = true
    · have h9p : v.data.length = 9 ∧ ∀ c ∈ v.data, c.isDigit = true := by
        have := h9
        simp only [nineDigits, Bool.and_eq_true, beq_iff_eq, List.all_eq_true] at this
        exact this
      by_cases hz : v = "000000000"
      · subst hz
        simp [routingNumberValidation, h9]
      · have hz' : (v == "000000000") = false := beq_eq_false_iff_ne.mpr hz
        have hlhs : routingNumberValidation "bank" (some v) = none := by
          simp [routingNumberValidation, hv', h9, hz']
        rw [hlhs]
        exact iff_of_true rfl ⟨h9p, hz⟩
    · have h9' : nineDigits v = false := by
        revert h9
        cases nineDigits v <;> simp
      have h9p : ¬ (v.data.length = 9 ∧ ∀ c ∈ v.data, c.isDigit = true) := by
        intro hcontra
        have hcb : nineDigits v = true := by
          simp only [nineDigits, Bool.and_eq_true, beq_iff_eq, List.all_eq_true]
          exact ⟨hcontra.1, hcontra.2⟩
        rw [hcb] at h9'
        exact absurd h9' (by simp)
      have hlhs : routingNumberValidation "bank" (some v) =
          some "Routing number must be exactly 9 digits" := by
        simp [routingNumberValidation, hv', h9']
      rw [hlhs]
      exact iff_of_false (by simp) (fun hcon => h9p hcon.1)

/-- Witness for C6 at concrete inputs: a missing routing number is
rejected and the 9-digit routing number `"021000021"` is accepted. -/
theorem routingNumber_validation_rules_witness :
    routingNumberValidation "bank" none = some "Routing number is required for bank transfers" ∧
    routingNumberValidation "bank" (some "021000021") = none :=
  ⟨routingNumber_validation_rules.1,
   (routingNumber_validation_rules.2 "021000021").mpr (by decide)⟩

/-- C10: every amount string that matches the amount pattern but whose
parsed value exceeds 10000 is rejected by the amount field validation
with the message "Amount cannot exceed $10,000". -/
theorem amountValidation_max (s : String)
    (h1 : matchesAmountPattern s = true) (h2 : 10000 < parseAmount s) :
    amountFieldValidation s = some "Amount cannot exceed $10,000" := by
  have hne : (s == "") = false := by
    refine beq_eq_false_iff_ne.mpr ?_
    intro h
    subst h
    exact absurd h1 (by decide)
  have hposb : decide ((0 : ℚ) < parseAmount s) = true :=
    decide_eq_true (lt_trans (by norm_num) h2)
  have hmaxb : decide (parseAmount s ≤ 10000) = false :=
    decide_eq_false (not_le.mpr h2)
  simp [amountFieldValidation, hne, h1, hposb, hmaxb]

/-- Witness for C10 at the concrete amount `"10000.01"`. -/
theorem amountValidation_max_witness :
    amountFieldValidation "10000.01" = some "Amount cannot exceed $10,000" := by
  have e1 : splitFirstDot "10000.01".data = (['1', '0', '0', '0', '0'], some ['0', '1']) := by
    decide
  have e2 : natOfDigits ['1', '0', '0', '0', '0'] = 10000 := by decide
  have e3 : natOfDigits ['0', '1'] = 1 := by decide
  have hval : parseAmount "10000.01" = (10000 : ℚ) + (1 : ℚ) / 10 ^ 2 := by
    simp only [parseAmount, e1, Option.getD_some]
    rw [e2, e3]
    norm_num
  apply amountValidation_max
  · decide
  · rw [hval]
    norm_num

/-- C2: when the funded account exists and is active, `fundAccount`
returns the new balance as the single arithmetic addition of the stored
balance and the amount, and persists that same sum on every stored row of
the account. -/
theorem fundAccount_single_addition (db : DB) (accountId userId : Nat) (amount : ℚ)
    (sourceType : String) (now newTxId : Nat) (account : Account)
    (h1 : findAccount db accountId userId = some account)
    (h2 : account.status = "active") :
    (fundAccount db accountId userId amount sourceType now newTxId).2.map Prod.snd =
      .ok (account.balance + amount) ∧
    ∀ b ∈ (fundAccount db accountId userId amount sourceType now newTxId).1.accounts,
      b.id = accountId → b.balance = account.balance + amount := by
  have h2' : (account.status != "active") = false := by
    simp [h2]
  constructor
  · simp [fundAccount, h1, h2', Except.map]
  · intro b hb hbid
    simp only [fundAccount, h1, h2', Bool.false_eq_true, if_false] at hb
    rw [List.mem_map] at hb
    obtain ⟨a, _, rfl⟩ := hb
    by_cases hid : (a.id == accountId) = true
    · simp [hid]
    · exfalso
      rw [if_neg (by simp [hid])] at hbid
      exact hid (beq_iff_eq.mpr hbid)

/-- Witness for C2: funding the account holding 100.50 with 25.75 returns
exactly 126.25. -/
theorem fundAccount_single_addition_witness :
    (fundAccount db2ex 5 1 (25.75 : ℚ) "card" 100 1).2.map Prod.snd =
      .ok (126.25 : ℚ) := by
  have h := (fundAccount_single_addition db2ex 5 1 (25.75 : ℚ) "card" 100 1 acct2ex rfl rfl).1
  have e : acct2ex.balance + (25.75 : ℚ) = (126.25 : ℚ) := by
    norm_num [acct2ex]
  rw [e] at h
  exact h

/-- C4: `fundAccount` fails with `NOT_FOUND` when no account with the
given id belongs to the user, and with `BAD_REQUEST` when the account is
not active; in both cases the returned database state is the input state
unchanged (no transaction inserted, balances untouched). -/
theorem fundAccount_precondition_failures (db : DB) (accountId userId : Nat) (amount : ℚ)
    (sourceType : String) (now newTxId : Nat) :
    (findAccount db accountId userId = none →
      fundAccount db accountId userId amount sourceType now newTxId =
        (db, .error ⟨.NOT_FOUND, "Account not found"⟩)) ∧
    (∀ account, findAccount db accountId userId = some account → account.status ≠ "active" →
      fundAccount db accountId userId amount sourceType now newTxId =
        (db, .error ⟨.BAD_REQUEST, "Account is not active"⟩)) := by
  constructor
  · intro h
    simp [fundAccount, h]
  · intro account h hstatus
    have hstatus' : (account.status != "active") = true := by
      simp [hstatus]
    simp [fundAccount, h, hstatus']

/-- Witness for C4: a lookup in an empty database fails with `NOT_FOUND`,
and funding the non-active fixture account fails with `BAD_REQUEST`; both
leave the database untouched. -/
theorem fundAccount_precondition_failures_witness :
    fundAccount ⟨[], []⟩ 1 1 5 "card" 0 1 =
      (⟨[], []⟩, .error ⟨.NOT_FOUND, "Account not found"⟩) ∧
    fundAccount dbFrozenEx 7 2 5 "card" 0 1 =
      (dbFrozenEx, .error ⟨.BAD_REQUEST, "Account is not active"⟩) :=
  ⟨(fundAccount_precondition_failures ⟨[], []⟩ 1 1 5 "card" 0 1).1 rfl,
   (fundAccount_precondition_failures dbFrozenEx 7 2 5 "card" 0 1).2 acctFrozenEx rfl
     (by decide)⟩

/-- C3: when the re-read after the insert yields no record (here: the
persistence layer dropped the acknowledged insert), `createAccount`
returns the `INTERNAL_SERVER_ERROR` "Failed to create account"; and on
every execution whatsoever, a successfully returned account carries
balance 0 — never a synthetic nonzero default. -/
theorem createAccount_reread_failure (db : DB) (userId : Nat) (accountType : String)
    (candidates : List String) (concurrent : List Account) (newId : Nat) (n : String)
    (h1 : hasAccountType db userId accountType = false)
    (h2 : findUniqueNumber db candidates = some n)
    (h3 : numberExists { db with accounts := db.accounts ++ concurrent } n = false) :
    (createAccount db userId accountType candidates concurrent newId true).2 =
      .error (.trpc ⟨.INTERNAL_SERVER_ERROR, "Failed to create account"⟩) ∧
    ∀ (insertDropped : Bool) (a : Account),
      (createAccount db userId accountType candidates concurrent newId insertDropped).2 =
        .ok a →
      a.balance = 0 := by
  have h3' : (db.accounts ++ concurrent).find? (fun a => a.accountNumber == n) = none := by
    cases hfind : (db.accounts ++ concurrent).find? (fun a => a.accountNumber == n) with
    | none => rfl
    | some a =>
        rw [numberExists] at h3
        simp only [hfind] at h3
        exact absurd h3 (by simp)
  constructor
  · simp [createAccount, h1, h2, h3, h3']
  · intro insertDropped a hok
    have hAB := h3'
    simp only [List.find?_append] at hAB
    rw [Option.or_eq_none] at hAB
    obtain ⟨hA, hB⟩ := hAB
    simp only [createAccount, h1, h2, h3, Bool.false_eq_true, if_false] at hok
    cases insertDropped with
    | true =>
        simp [h3'] at hok
    | false =>
        simp [List.find?_append, hA, hB] at hok
        rw [← hok]

/-- Witness for C3: with an empty database, one candidate number, no
concurrent inserts, and the insert dropped by the driver, `createAccount`
raises the internal error. -/
theorem createAccount_reread_failure_witness :
    (createAccount ⟨[], []⟩ 1 "checking" ["1234567890"] [] 1 true).2 =
      .error (.trpc ⟨.INTERNAL_SERVER_ERROR, "Failed to create account"⟩) :=
  (createAccount_reread_failure ⟨[], []⟩ 1 "checking" ["1234567890"] [] 1 "1234567890"
    (by decide) (by decide) (by decide)).1

/-- C9 (counterexample): with candidates `["1111111111", "2222222222"]`
and a concurrent request having inserted `"1111111111"` between the
existence check and the insert, `createAccount` propagates the
uniqueness violation as an error instead of retrying with the second
candidate. -/
theorem createAccount_insert_violation_not_retried :
    (createAccount ⟨[], []⟩ 1 "checking" ["1111111111", "2222222222"] [concAcct9ex] 3
        false).2 =
      .error (.uniqueViolation "1111111111") := by
  rfl

/-- C9 (amended): the uniqueness loop retries with the next candidate
when the pre-insert existence check finds the candidate taken, but a
uniqueness violation raised by the insert itself is propagated as an
error, not treated as a signal to retry. -/
theorem createAccount_uniqueness_retry_semantics (db : DB) :
    (∀ c rest, numberExists db c = true →
      findUniqueNumber db (c :: rest) = findUniqueNumber db rest) ∧
    (∀ userId accountType candidates concurrent newId insertDropped n,
      hasAccountType db userId accountType = false →
      findUniqueNumber db candidates = some n →
      numberExists { db with accounts := db.accounts ++ concurrent } n = true →
      (createAccount db userId accountType candidates concurrent newId insertDropped).2 =
        .error (.uniqueViolation n)) := by
  constructor
  · intro c rest h
    simp [findUniqueNumber, h]
  · intro userId accountType candidates concurrent newId insertDropped n h1 h2 h3
    simp [createAccount, h1, h2, h3]

/-- Witness for the amended C9 theorem: the taken candidate
`"9999999999"` is skipped by the existence-check loop, and an insert-time
collision on `"1111111111"` is propagated as a uniqueness-violation
error. -/
theorem createAccount_uniqueness_retry_semantics_witness :
    findUniqueNumber db9ex ["9999999999", "8888888888"] =
      findUniqueNumber db9ex ["8888888888"] ∧
    (createAccount db9ex 1 "savings" ["1111111111", "2222222222"] [concAcct9ex] 3
        false).2 =
      .error (.uniqueViolation "1111111111") :=
  ⟨(createAccount_uniqueness_retry_semantics db9ex).1 "9999999999" ["8888888888"]
      (by decide),
   (createAccount_uniqueness_retry_semantics db9ex).2 1 "savings"
      ["1111111111", "2222222222"] [concAcct9ex] 3 false "1111111111"
      (by decide) (by decide) (by decide)⟩

/-- C5: for an account owned by the calling user, `getTransactions`
returns exactly the account's stored transactions (a permutation of the
filtered table), ordered descending by creation time, each enriched with
the account type of the single account record fetched for the ownership
check, while issuing exactly 2 database queries regardless of how many
transactions the account has (no per-transaction lookup). -/
theorem getTransactions_spec (db : DB) (accountId userId : Nat) (account : Account)
    (enriched : List EnrichedTransaction)
    (h1 : findAccount db accountId userId = some account)
    (h2 : (getTransactions db accountId userId).1 = .ok enriched) :
    List.Perm (enriched.map EnrichedTransaction.tx)
        (db.transactions.filter (fun t => t.accountId == accountId)) ∧
    List.Sorted txDesc (enriched.map EnrichedTransaction.tx) ∧
    enriched.all (fun e => e.accountType == account.accountType) = true ∧
    (getTransactions db accountId userId).2 = 2 := by
  have hE : enriched = (List.insertionSort txDesc
      (db.transactions.filter (fun t => t.accountId == accountId))).map
        (fun t => ⟨t, account.accountType⟩) := by
    have h2c := h2
    simp only [getTransactions, h1] at h2c
    exact (Except.ok.inj h2c).symm
  subst hE
  have hmm : ((List.insertionSort txDesc
      (db.transactions.filter (fun t => t.accountId == accountId))).map
        (fun t => (⟨t, account.accountType⟩ : EnrichedTransaction))).map
          EnrichedTransaction.tx =
      List.insertionSort txDesc (db.transactions.filter (fun t => t.accountId == accountId)) := by
    rw [List.map_map]
    have hcomp : (EnrichedTransaction.tx ∘ fun t =>
        (⟨t, account.accountType⟩ : EnrichedTransaction)) = id := by
      funext t
      rfl
    rw [hcomp, List.map_id]
  refine ⟨?_, ?_, ?_, ?_⟩
  · rw [hmm]
    exact List.perm_insertionSort txDesc _
  · rw [hmm]
    exact List.sorted_insertionSort txDesc _
  · rw [List.all_eq_true]
    intro e he
    rw [List.mem_map] at he
    obtain ⟨t, _, rfl⟩ := he
    simp
  · simp [getTransactions, h1]

/-- Witness for C5 on the fixture database: the two stored transactions
of account 3 come back newest-first, enriched with the savings type, via
exactly 2 queries. -/
theorem getTransactions_spec_witness :
    List.Perm (([⟨tx5b, "savings"⟩, ⟨tx5a, "savings"⟩] : List EnrichedTransaction).map
        EnrichedTransaction.tx)
      (db5ex.transactions.filter (fun t => t.accountId == 3)) ∧
    List.Sorted txDesc (([⟨tx5b, "savings"⟩, ⟨tx5a, "savings"⟩] : List EnrichedTransaction).map
        EnrichedTransaction.tx) ∧
    ([⟨tx5b, "savings"⟩, ⟨tx5a, "savings"⟩] : List EnrichedTransaction).all
        (fun e => e.accountType == acct5ex.accountType) = true ∧
    (getTransactions db5ex 3 2).2 = 2 :=
  getTransactions_spec db5ex 3 2 acct5ex [⟨tx5b, "savings"⟩, ⟨tx5a, "savings"⟩] rfl rfl
